import Mathlib

/-!
Verification of the RATP sanitaires dashboard (`app.py`).

The program fetches records from an open-data API (`load_data_from_api`),
cleans them into a table (`clean_data`: coordinate extraction, dropping of
rows without GPS data, renaming, defaulting of `Tarif`/`Ligne`, constant
`color` column), filters the table by a sidebar multi-select on `Ligne`,
and renders one of four pages.  This file is a shallow embedding of the
data model (`Value`, `DataFrame`) and of those operations, together with
proofs and refutations of the specification's claims about them.

Conventions of the embedding:
* Python `None` and pandas `NaN` are both modelled as `Value.null`;
  the program only ever tests cells for null-ness, so the distinction
  is unobservable.
* Numbers are modelled as rationals; concrete decimal literals are
  written with `dec` (`dec 4885 2` is the decimal `48.85`).
* A pandas `DataFrame` is a list of column names plus positionally
  aligned rows.  Duplicate column names never arise in the program's
  pipeline; all column operations use first-occurrence indexing.
-/

mutual
/-- A cell value of the dynamically typed data frame: Python `None` /
pandas `NaN` (both `null`), strings, numbers, and nested lists such as
the `coord_geo` field `[48.85, 2.35]`. -/
inductive Value where
  | null : Value
  | str (s : String) : Value
  | num (q : Rat) : Value
  | vlist (xs : ValueList) : Value
deriving DecidableEq

/-- A list of `Value`s (kept mutual with `Value` so that decidable
equality is derivable and kernel-reducible). -/
inductive ValueList where
  | vnil : ValueList
  | vcons (v : Value) (vs : ValueList) : ValueList
deriving DecidableEq
end

/-- Exact decimal `m × 10⁻ᵉ`, e.g. `dec 4885 2 = 48.85`. -/
def dec (m : Int) (e : Nat) : Rat := mkRat m (10 ^ e)

/-- Build a `ValueList` from a Lean list. -/
def ValueList.ofList : List Value → ValueList
  | [] => .vnil
  | v :: vs => .vcons v (ValueList.ofList vs)

/-- `len(x)` for a Python list value. -/
def ValueList.length : ValueList → Nat
  | .vnil => 0
  | .vcons _ vs => ValueList.length vs + 1

/-- `x[i]` for a Python list value, with a default for out-of-range. -/
def ValueList.getD : ValueList → Nat → Value → Value
  | .vnil, _, d => d
  | .vcons v _, 0, _ => v
  | .vcons _ vs, n + 1, d => ValueList.getD vs n d

/-- A raw API record (`r['fields']` in the source): an ordered
field-name/value mapping, like a Python dict. -/
abbrev RawRecord := List (String × Value)

/-- A pandas data frame: an ordered list of column names and a list of
rows, each row aligned positionally with the columns. -/
structure DataFrame where
  cols : List String
  rows : List (List Value)
deriving DecidableEq

/-- `df.empty` in pandas: true when either axis has length zero. -/
def DataFrame.isEmpty (df : DataFrame) : Bool :=
  df.rows.isEmpty || df.cols.isEmpty

/-- Well-formedness: every row has exactly one cell per column. -/
def DataFrame.WF (df : DataFrame) : Prop :=
  ∀ r ∈ df.rows, r.length = df.cols.length

instance (df : DataFrame) : Decidable df.WF :=
  decidable_of_iff (∀ r ∈ df.rows, r.length = df.cols.length) Iff.rfl

/-- Index of the first column with the given name, if any. -/
def colIdx? : List String → String → Option Nat
  | [], _ => none
  | c :: cs, n => if c = n then some 0 else (colIdx? cs n).map (· + 1)

/-- Read the cell of row `r` in the column named `c` (null when absent). -/
def getCell (cols : List String) (r : List Value) (c : String) : Value :=
  match colIdx? cols c with
  | some i => r.getD i .null
  | none => .null

/-- The values of column `c`, one per row (empty when the column is
absent): the series `df[c]` read off row by row. -/
def getCol (df : DataFrame) (c : String) : List Value :=
  match colIdx? df.cols c with
  | some i => df.rows.map (fun r => r.getD i .null)
  | none => []

/-- `df[c] = series` where the series value for each row is `f row`:
replaces the column when present, appends it otherwise. -/
def withCol (df : DataFrame) (c : String) (f : List Value → Value) : DataFrame :=
  match colIdx? df.cols c with
  | some i => ⟨df.cols, df.rows.map (fun r => r.set i (f r))⟩
  | none => ⟨df.cols ++ [c], df.rows.map (fun r => r ++ [f r])⟩

/-- Column-name union of a record list in order of first appearance:
the columns `pd.DataFrame(list_of_dicts)` produces. -/
def keyUnion (records : List RawRecord) : List String :=
  records.foldl
    (fun acc r =>
      r.foldl (fun acc kv => if acc.contains kv.1 then acc else acc ++ [kv.1]) acc)
    []

/-- `pd.DataFrame(records)`: one column per field name (in order of
first appearance), one row per record, missing fields becoming null. -/
def toDataFrame (records : List RawRecord) : DataFrame :=
  let cols := keyUnion records
  ⟨cols, records.map (fun r => cols.map (fun k => ((r.lookup k).getD .null)))⟩

/-- `pd.DataFrame()`: the empty frame returned on fetch failure. -/
def emptyDF : DataFrame := ⟨[], []⟩

instance {ε α : Type} [DecidableEq ε] [DecidableEq α] : DecidableEq (Except ε α) :=
  fun a b =>
    match a, b with
    | .ok x, .ok y =>
      if h : x = y then isTrue (by rw [h]) else isFalse (fun hh => h (by injection hh))
    | .error x, .error y =>
      if h : x = y then isTrue (by rw [h]) else isFalse (fun hh => h (by injection hh))
    | .ok _, .error _ => isFalse (fun hh => Except.noConfusion hh)
    | .error _, .ok _ => isFalse (fun hh => Except.noConfusion hh)

/-! ## The cleaning pipeline (`clean_data`, app.py lines 32–80) -/

/-- Python `str(x)` as applied by `astype(str)`.  Missing values render
as `"nan"` (pandas).  The rendering of numbers and nested lists is
abstracted (no claim observes it); what matters is that the result is
always a string. -/
def pyStr : Value → String
  | .null => "nan"
  | .str s => s
  | .num q => toString q.num ++ (if q.den = 1 then "" else "/" ++ toString q.den)
  | .vlist _ => "[...]"

/-- The lambda of line 47: `x[0] if isinstance(x, list) and len(x)==2 else None`. -/
def coordLambda0 : Value → Value
  | .vlist xs => if xs.length = 2 then xs.getD 0 .null else .null
  | _ => .null

/-- The lambda of line 48: `x[1] if isinstance(x, list) and len(x)==2 else None`. -/
def coordLambda1 : Value → Value
  | .vlist xs => if xs.length = 2 then xs.getD 1 .null else .null
  | _ => .null

/-- Lines 44–50: `df['lat'] = df['coord_geo'].apply(...)` then
`df['lon'] = df['coord_geo'].apply(...)` (the second read sees the frame
already holding `lat`, as in the source).  The `try/except: pass` around
these assignments cannot fire in the model: the guarded lambdas are
total. -/
def extract_coords (df : DataFrame) : DataFrame :=
  let d1 := withCol df "lat" (fun r => coordLambda0 (getCell df.cols r "coord_geo"))
  withCol d1 "lon" (fun r => coordLambda1 (getCell d1.cols r "coord_geo"))

/-- Line 53: `df.dropna(subset=['lat', 'lon'])`.  pandas raises
`KeyError` when a subset column is absent; otherwise it keeps exactly
the rows whose `lat` and `lon` cells are both non-null. -/
def dropna_lat_lon (df : DataFrame) : Except String DataFrame :=
  if "lat" ∈ df.cols ∧ "lon" ∈ df.cols then
    .ok ⟨df.cols,
         df.rows.filter (fun r =>
           decide (getCell df.cols r "lat" ≠ .null) &&
           decide (getCell df.cols r "lon" ≠ .null))⟩
  else .error "KeyError"

/-- The five-entry rename mapping of lines 57–63. -/
def mapping : List (String × String) :=
  [("ligne", "Ligne"),
   ("station", "Station"),
   ("tarif_gratuit_payant", "Tarif"),
   ("acces_bouton_poussoir", "Accessibilité"),
   ("en_zone_controlee_ou_hors_zone_controlee_station", "Zone")]

/-- Line 64: `df.rename(columns=mapping)` — names in the mapping are
replaced, all other columns pass through unchanged. -/
def renameCols (df : DataFrame) : DataFrame :=
  ⟨df.cols.map (fun n => (mapping.lookup n).getD n), df.rows⟩

/-- Lines 67–70: `df['Tarif'] = df['Tarif'].fillna('Inconnu')` when the
column exists, else `df['Tarif'] = 'Inconnu'`. -/
def tarif_step (df : DataFrame) : DataFrame :=
  if "Tarif" ∈ df.cols then
    withCol df "Tarif" (fun r =>
      if getCell df.cols r "Tarif" = .null then .str "Inconnu"
      else getCell df.cols r "Tarif")
  else withCol df "Tarif" (fun _ => .str "Inconnu")

/-- Lines 72–75: `df['Ligne'] = df['Ligne'].astype(str)` when the column
exists, else `df['Ligne'] = 'Inconnue'`. -/
def ligne_step (df : DataFrame) : DataFrame :=
  if "Ligne" ∈ df.cols then
    withCol df "Ligne" (fun r => .str (pyStr (getCell df.cols r "Ligne")))
  else withCol df "Ligne" (fun _ => .str "Inconnue")

/-- Line 78: `df['color'] = '#FF0000'`. -/
def color_step (df : DataFrame) : DataFrame :=
  withCol df "color" (fun _ => .str "#FF0000")

/-- `clean_data` (lines 32–80).  The early return on an empty frame and
the value-level effect of each subsequent statement; `dropna`'s
`KeyError` propagates to the caller as `.error` (nothing in `clean_data`
catches it). -/
def clean_data (df : DataFrame) : Except String DataFrame :=
  if df.isEmpty then .ok df
  else
    let d1 := if "coord_geo" ∈ df.cols then extract_coords df else df
    match dropna_lat_lon d1 with
    | .error e => .error e
    | .ok d2 => .ok (color_step (ligne_step (tarif_step (renameCols d2))))

/-! ## The fetch (`load_data_from_api`, app.py lines 10–30) -/

/-- The two user-visible error reports of the fetch: line 26
(`st.error("Erreur de connexion à l'API RATP.")`) and line 29
(`st.error(f"Erreur technique : {e}")`, carrying the exception text). -/
inductive ErrMsg where
  | connectionError : ErrMsg
  | technicalError (e : String) : ErrMsg
deriving DecidableEq

/-- One element of the `records` array of the API response; its
`fields` sub-object may be absent (then `r['fields']` raises). -/
structure ApiRecord where
  fieldsPart : Option RawRecord
deriving DecidableEq

/-- The body of an HTTP response as seen by the fetch: either
`response.json()` raises (`parseError`), or it yields a document whose
`records` list (defaulted to `[]` by `data.get('records', [])`) is
`parsed`. -/
inductive ApiBody where
  | parseError (e : String) : ApiBody
  | parsed (records : List ApiRecord) : ApiBody
deriving DecidableEq

/-- The outcome of `requests.get(url)`: a response with a status code
and body, or a raised transport exception. -/
inductive Response where
  | success (status : Nat) (body : ApiBody) : Response
  | transportError (e : String) : Response
deriving DecidableEq

/-- `[r['fields'] for r in records]`: fails (KeyError, caught by the
enclosing `except`) on the first record without a `fields` key. -/
def extractFields : List ApiRecord → Except String (List RawRecord)
  | [] => .ok []
  | r :: rs =>
    match r.fieldsPart with
    | none => .error "KeyError: fields"
    | some f =>
      match extractFields rs with
      | .error e => .error e
      | .ok fs => .ok (f :: fs)

/-- `load_data_from_api` (lines 10–30), as a function of the HTTP
outcome: returns the data frame it builds together with the error
message it reports, if any.  Status is checked before the body is
parsed, exactly as in the source. -/
def load_data_from_api (resp : Response) : DataFrame × Option ErrMsg :=
  match resp with
  | .transportError e => (emptyDF, some (.technicalError e))
  | .success status body =>
    if status = 200 then
      match body with
      | .parseError e => (emptyDF, some (.technicalError e))
      | .parsed recs =>
        match extractFields recs with
        | .error e => (emptyDF, some (.technicalError e))
        | .ok flds => (toDataFrame flds, none)
    else (emptyDF, some .connectionError)

/-! ## The sidebar filter (app.py lines 94–102) -/

/-- `sorted(df['Ligne'].unique())`: the distinct `Ligne` values of the
table, which populate the multi-select.  Mathlib's `dedup` stands in
for `unique`; the sort is omitted, as only membership in the selection
is ever observed. -/
def lignes_dispo (df : DataFrame) : List Value :=
  (getCol df "Ligne").dedup

/-- `df[df['Ligne'].isin(choix)]`: keep the rows whose `Ligne` cell is
one of the chosen values. -/
def filterIsin (df : DataFrame) (c : String) (sel : List Value) : DataFrame :=
  ⟨df.cols, df.rows.filter (fun r => decide (getCell df.cols r c ∈ sel))⟩

/-- Lines 94–102 as a function of the selection `choix` made in the
multi-select: when the table is non-empty and has a `Ligne` column, a
non-empty selection filters and an empty selection falls back to the
full table; otherwise the table passes through unfiltered. -/
def df_filtre (df : DataFrame) (choix : List Value) : DataFrame :=
  if df.isEmpty = false ∧ "Ligne" ∈ df.cols then
    if choix ≠ [] then filterIsin df "Ligne" choix else df
  else df

/-! ## The `Accueil` page (app.py lines 107–122) -/

/-- The visual elements a page emits, in order.  `successBanner` is
`st.success`, `errorBanner` is `st.error`, `warning` is `st.warning`
(the latter two are what the other pages use for their empty states;
`Accueil` never emits them). -/
inductive UIElem where
  | title (s : String) : UIElem
  | successBanner (s : String) : UIElem
  | errorBanner (s : String) : UIElem
  | warning (s : String) : UIElem
  | metric (label : String) (value : Nat) : UIElem
  | mdRule : UIElem
  | subheader (s : String) : UIElem
  | pieChart (names : String) : UIElem
deriving DecidableEq

/-- Is the element a success banner? -/
def UIElem.isSuccessBanner : UIElem → Bool
  | .successBanner _ => true
  | _ => false

/-- Is the element a failure-style banner (`st.error` or `st.warning`)? -/
def UIElem.isFailureBanner : UIElem → Bool
  | .errorBanner _ => true
  | .warning _ => true
  | _ => false

/-- Is the element a metric widget? -/
def UIElem.isMetric : UIElem → Bool
  | .metric _ _ => true
  | _ => false

/-- Line 116: `len(df_filtre[df_filtre['Tarif'] == 'Gratuit'])`. -/
def countGratuit (df : DataFrame) : Nat :=
  (df.rows.filter (fun r => decide (getCell df.cols r "Tarif" = .str "Gratuit"))).length

/-- The `Accueil` page (lines 107–122) applied to the cleaned table
`df` and the filtered view `dff`: a title and a success banner are
emitted unconditionally; the metrics, rule, subheader and pie chart
only when `df` is non-empty. -/
def accueil_page (df dff : DataFrame) : List UIElem :=
  [.title "🚾 Dashboard RATP (API En direct)",
   .successBanner "✅ Données récupérées avec succès depuis l'API officielle !"]
  ++ (if df.isEmpty = false then
        [.metric "Stations trouvées" dff.rows.length,
         .metric "Toilettes Gratuites" (countGratuit dff),
         .mdRule,
         .subheader "💰 Répartition Gratuit / Payant",
         .pieChart "Tarif"]
      else [])

/-! ## Object identity: `clean_data` and its argument (app.py line 34)

The pure `clean_data` above gives the value semantics.  To state that
the function does not mutate the frame passed in (it works on
`df.copy()`), the aliasing is made explicit: frames live in a heap of
objects, references are indices, and each statement of the source either
allocates a fresh object (`copy`, `dropna`, `rename`) or mutates an
object in place (column assignment). -/

/-- A heap of data-frame objects; references are list indices. -/
structure Heap where
  store : List DataFrame
deriving DecidableEq

/-- Dereference. -/
def Heap.get (h : Heap) (r : Nat) : Option DataFrame := h.store[r]?

/-- In-place mutation of the object at `r`. -/
def Heap.set (h : Heap) (r : Nat) (df : DataFrame) : Heap := ⟨h.store.set r df⟩

/-- Allocation of a fresh object; returns the new heap and reference. -/
def Heap.alloc (h : Heap) (df : DataFrame) : Heap × Nat :=
  (⟨h.store ++ [df]⟩, h.store.length)

/-- `clean_data` with explicit object identity, mirroring the source
line by line: the early return hands back the argument reference
itself; otherwise line 34 allocates a copy, lines 40–50 mutate that
copy in place, line 53 allocates the `dropna` result, line 64 allocates
the `rename` result, and lines 67–78 mutate the `rename` result in
place.  Returns the final heap and either the resulting reference or
the propagated `KeyError`. -/
def clean_data_st (h : Heap) (arg : Nat) : Heap × Except String Nat :=
  match h.get arg with
  | none => (h, .error "invalid reference")
  | some df0 =>
    if df0.isEmpty then (h, .ok arg)
    else
      let (h1, rCopy) := h.alloc df0
      let d1 := if "coord_geo" ∈ df0.cols then extract_coords df0 else df0
      let h2 := h1.set rCopy d1
      match dropna_lat_lon d1 with
      | .error e => (h2, .error e)
      | .ok d2 =>
        let (h3, _rDrop) := h2.alloc d2
        let (h4, rRen) := h3.alloc (renameCols d2)
        let d5 := color_step (ligne_step (tarif_step (renameCols d2)))
        let h5 := h4.set rRen d5
        (h5, .ok rRen)

/-! ## Concrete sample data (the spec's scenario inputs) -/

/-- The spec's scenario record
`{"coord_geo": [48.85, 2.35], "ligne": "1", "tarif_gratuit_payant": "Payant"}`. -/
def sampleRecord : RawRecord :=
  [("coord_geo", Value.vlist (.ofList [.num (dec 4885 2), .num (dec 235 2)])),
   ("ligne", Value.str "1"),
   ("tarif_gratuit_payant", Value.str "Payant")]

/-- The frame `clean_data` produces from `[sampleRecord]`. -/
def sampleCleaned : DataFrame :=
  ⟨["coord_geo", "Ligne", "Tarif", "lat", "lon", "color"],
   [[Value.vlist (.ofList [.num (dec 4885 2), .num (dec 235 2)]),
     .str "1", .str "Payant", .num (dec 4885 2), .num (dec 235 2),
     .str "#FF0000"]]⟩

/-- The spec's scenario record `{"ligne": "4"}` (no `coord_geo`). -/
def recordNoCoord : RawRecord := [("ligne", Value.str "4")]

/-- The test `isinstance(x, list) and len(x) == 2` guarding both
coordinate lambdas. -/
def isPairList : Value → Bool
  | .vlist xs => xs.length == 2
  | _ => false


/-! ## Supporting lemmas: indexing -/

theorem getD_set_self {α : Type} (r : List α) {i : Nat} (v d : α) (h : i < r.length) :
    (r.set i v).getD i d = v := by
  rw [List.getD_eq_getD_get?, List.get?_eq_getElem?, List.getElem?_set_eq_of_lt _ h]
  rfl

theorem getD_set_ne {α : Type} (r : List α) {i j : Nat} (v d : α) (h : i ≠ j) :
    (r.set i v).getD j d = r.getD j d := by
  rw [List.getD_eq_getD_get?, List.getD_eq_getD_get?, List.get?_eq_getElem?,
    List.get?_eq_getElem?, List.getElem?_set_ne h]

theorem getD_append_left {α : Type} (r l : List α) {i : Nat} (d : α) (h : i < r.length) :
    (r ++ l).getD i d = r.getD i d := by
  rw [List.getD_eq_getD_get?, List.getD_eq_getD_get?, List.get?_eq_getElem?,
    List.get?_eq_getElem?, List.getElem?_append_left h]

theorem getD_concat_self {α : Type} (r : List α) (v d : α) :
    (r ++ [v]).getD r.length d = v := by
  rw [List.getD_eq_getD_get?, List.get?_eq_getElem?, List.getElem?_concat_length]
  rfl

theorem colIdx?_eq_none_iff (cols : List String) (c : String) :
    colIdx? cols c = none ↔ c ∉ cols := by
  induction cols with
  | nil => simp [colIdx?]
  | cons x xs ih =>
    by_cases hx : x = c
    · simp [colIdx?, hx]
    · simp [colIdx?, hx, Option.map_eq_none', ih, Ne.symm hx]

theorem colIdx?_isSome_of_mem {cols : List String} {c : String} (h : c ∈ cols) :
    ∃ i, colIdx? cols c = some i := by
  rcases ho : colIdx? cols c with _ | i
  · exact absurd ((colIdx?_eq_none_iff cols c).mp ho) (not_not_intro h)
  · exact ⟨i, rfl⟩

theorem colIdx?_lt {cols : List String} {c : String} {i : Nat}
    (h : colIdx? cols c = some i) : i < cols.length := by
  induction cols generalizing i with
  | nil => simp [colIdx?] at h
  | cons x xs ih =>
    by_cases hx : x = c
    · simp [colIdx?, hx] at h
      simp only [List.length_cons]
      omega
    · simp only [colIdx?, if_neg hx, Option.map_eq_some'] at h
      obtain ⟨j, hj, rfl⟩ := h
      have := ih hj
      simp only [List.length_cons]
      omega

theorem colIdx?_getD {cols : List String} {c : String} {i : Nat}
    (h : colIdx? cols c = some i) : cols.getD i "" = c := by
  induction cols generalizing i with
  | nil => simp [colIdx?] at h
  | cons x xs ih =>
    by_cases hx : x = c
    · simp [colIdx?, hx] at h
      subst h
      simpa using hx
    · simp only [colIdx?, if_neg hx, Option.map_eq_some'] at h
      obtain ⟨j, hj, rfl⟩ := h
      simpa using ih hj

theorem colIdx?_ne_of_ne {cols : List String} {a b : String} {i j : Nat}
    (ha : colIdx? cols a = some i) (hb : colIdx? cols b = some j)
    (hab : a ≠ b) : i ≠ j := by
  intro hij
  subst hij
  exact hab ((colIdx?_getD ha).symm.trans (colIdx?_getD hb))

theorem colIdx?_append_left {cols : List String} {c : String} (l : List String)
    (h : c ∈ cols) : colIdx? (cols ++ l) c = colIdx? cols c := by
  induction cols with
  | nil => simp at h
  | cons x xs ih =>
    by_cases hx : x = c
    · simp [colIdx?, hx]
    · have hxs : c ∈ xs := by
        rcases List.mem_cons.mp h with h1 | h1
        · exact absurd h1.symm hx
        · exact h1
      simp [colIdx?, hx, ih hxs]

theorem colIdx?_concat_self {cols : List String} {c : String} (h : c ∉ cols) :
    colIdx? (cols ++ [c]) c = some cols.length := by
  induction cols with
  | nil => simp [colIdx?]
  | cons x xs ih =>
    have hx : x ≠ c := fun hh => h (hh ▸ List.mem_cons_self x xs)
    have hxs : c ∉ xs := fun hh => h (List.mem_cons_of_mem _ hh)
    simp [colIdx?, hx, ih hxs]

/-! ## Supporting lemmas: column update and read-back -/

theorem mem_of_colIdx?_some {cols : List String} {c : String} {i : Nat}
    (h : colIdx? cols c = some i) : c ∈ cols := by
  by_contra hc
  rw [(colIdx?_eq_none_iff cols c).mpr hc] at h
  exact Option.noConfusion h

theorem getCol_eq_map_getCell {df : DataFrame} {c : String} (h : c ∈ df.cols) :
    getCol df c = df.rows.map (fun r => getCell df.cols r c) := by
  obtain ⟨i, hi⟩ := colIdx?_isSome_of_mem h
  simp [getCol, getCell, hi]

theorem withCol_of_idx {df : DataFrame} {c : String} {i : Nat}
    (f : List Value → Value) (h : colIdx? df.cols c = some i) :
    withCol df c f = ⟨df.cols, df.rows.map (fun r => r.set i (f r))⟩ := by
  unfold withCol
  rw [h]

theorem withCol_of_none {df : DataFrame} {c : String}
    (f : List Value → Value) (h : colIdx? df.cols c = none) :
    withCol df c f = ⟨df.cols ++ [c], df.rows.map (fun r => r ++ [f r])⟩ := by
  unfold withCol
  rw [h]

theorem WF_withCol {df : DataFrame} (hwf : df.WF) (c : String) (f : List Value → Value) :
    (withCol df c f).WF := by
  intro r hr
  rcases hc : colIdx? df.cols c with _ | i
  · rw [withCol_of_none f hc] at hr ⊢
    simp only [List.mem_map] at hr
    obtain ⟨r0, hr0, rfl⟩ := hr
    simp [hwf r0 hr0]
  · rw [withCol_of_idx f hc] at hr ⊢
    simp only [List.mem_map] at hr
    obtain ⟨r0, hr0, rfl⟩ := hr
    simp [hwf r0 hr0]

theorem mem_cols_withCol_self (df : DataFrame) (c : String) (f : List Value → Value) :
    c ∈ (withCol df c f).cols := by
  rcases hc : colIdx? df.cols c with _ | i
  · rw [withCol_of_none f hc]
    simp
  · rw [withCol_of_idx f hc]
    exact mem_of_colIdx?_some hc

theorem mem_cols_withCol_mono {df : DataFrame} {c' : String} (c : String)
    (f : List Value → Value) (h : c' ∈ df.cols) : c' ∈ (withCol df c f).cols := by
  rcases hc : colIdx? df.cols c with _ | i
  · rw [withCol_of_none f hc]
    exact List.mem_append_left _ h
  · rw [withCol_of_idx f hc]
    exact h

theorem getCol_withCol_self {df : DataFrame} (hwf : df.WF) (c : String)
    (f : List Value → Value) : getCol (withCol df c f) c = df.rows.map f := by
  rcases hc : colIdx? df.cols c with _ | i
  · have hnm : c ∉ df.cols := (colIdx?_eq_none_iff _ _).mp hc
    rw [withCol_of_none f hc]
    unfold getCol
    simp only [colIdx?_concat_self hnm]
    rw [List.map_map]
    apply List.map_congr_left
    intro r hr
    simp only [Function.comp_apply]
    rw [← hwf r hr]
    exact getD_concat_self r (f r) .null
  · rw [withCol_of_idx f hc]
    unfold getCol
    simp only [hc]
    rw [List.map_map]
    apply List.map_congr_left
    intro r hr
    simp only [Function.comp_apply]
    exact getD_set_self r (f r) .null (by rw [hwf r hr]; exact colIdx?_lt hc)

theorem getCell_set_ne {cols : List String} {c c' : String} {i : Nat}
    (r : List Value) (v : Value) (hne : c' ≠ c) (hi : colIdx? cols c = some i) :
    getCell cols (r.set i v) c' = getCell cols r c' := by
  unfold getCell
  rcases hj : colIdx? cols c' with _ | j
  · rfl
  · exact getD_set_ne r v .null (colIdx?_ne_of_ne hi hj (Ne.symm hne))

theorem getCell_concat_ne {cols : List String} {c c' : String}
    (r : List Value) (v : Value) (hne : c' ≠ c) (_hnm : c ∉ cols)
    (hr : r.length = cols.length) :
    getCell (cols ++ [c]) (r ++ [v]) c' = getCell cols r c' := by
  unfold getCell
  rcases hj : colIdx? cols c' with _ | j
  · have hj' : colIdx? (cols ++ [c]) c' = none := by
      rw [colIdx?_eq_none_iff] at hj ⊢
      simp [hj, hne]
    rw [hj']
  · rw [colIdx?_append_left [c] (mem_of_colIdx?_some hj), hj]
    exact getD_append_left r [v] .null (by rw [hr]; exact colIdx?_lt hj)

theorem map_getCell_withCol {df : DataFrame} (hwf : df.WF) {c c' : String}
    (hne : c' ≠ c) (f : List Value → Value) (g : Value → Value) :
    (withCol df c f).rows.map (fun r => g (getCell (withCol df c f).cols r c')) =
    df.rows.map (fun r => g (getCell df.cols r c')) := by
  rcases hc : colIdx? df.cols c with _ | i
  · rw [withCol_of_none f hc]
    rw [List.map_map]
    apply List.map_congr_left
    intro r hr
    simp only [Function.comp_apply]
    rw [getCell_concat_ne r (f r) hne ((colIdx?_eq_none_iff _ _).mp hc) (hwf r hr)]
  · rw [withCol_of_idx f hc]
    rw [List.map_map]
    apply List.map_congr_left
    intro r hr
    simp only [Function.comp_apply]
    rw [getCell_set_ne r (f r) hne hc]

theorem getCol_withCol_ne {df : DataFrame} (hwf : df.WF) {c c' : String}
    (hne : c' ≠ c) (f : List Value → Value) :
    getCol (withCol df c f) c' = getCol df c' := by
  by_cases hm : c' ∈ df.cols
  · rw [getCol_eq_map_getCell hm, getCol_eq_map_getCell (mem_cols_withCol_mono c f hm)]
    exact map_getCell_withCol hwf hne f (fun v => v)
  · have h1 : colIdx? df.cols c' = none := (colIdx?_eq_none_iff _ _).mpr hm
    have h2 : colIdx? (withCol df c f).cols c' = none := by
      rw [colIdx?_eq_none_iff]
      rcases hc : colIdx? df.cols c with _ | i
      · rw [withCol_of_none f hc]
        simp [hm, hne]
      · rw [withCol_of_idx f hc]
        exact hm
    unfold getCol
    rw [h1, h2]

/-! ## Supporting lemmas: the cleaning steps -/

theorem WF_extract_coords {df : DataFrame} (hwf : df.WF) : (extract_coords df).WF :=
  WF_withCol (WF_withCol hwf _ _) _ _

theorem WF_dropna {df d2 : DataFrame} (hwf : df.WF)
    (h : dropna_lat_lon df = .ok d2) : d2.WF := by
  unfold dropna_lat_lon at h
  by_cases hm : "lat" ∈ df.cols ∧ "lon" ∈ df.cols
  · rw [if_pos hm] at h
    injection h with h'
    subst h'
    intro r hr
    exact hwf r (List.mem_filter.mp hr).1
  · rw [if_neg hm] at h
    exact Except.noConfusion h

theorem WF_renameCols {df : DataFrame} (hwf : df.WF) : (renameCols df).WF := by
  intro r hr
  simp only [renameCols] at hr ⊢
  rw [List.length_map]
  exact hwf r hr

theorem WF_tarif_step {df : DataFrame} (hwf : df.WF) : (tarif_step df).WF := by
  unfold tarif_step
  split
  · exact WF_withCol hwf _ _
  · exact WF_withCol hwf _ _

theorem WF_ligne_step {df : DataFrame} (hwf : df.WF) : (ligne_step df).WF := by
  unfold ligne_step
  split
  · exact WF_withCol hwf _ _
  · exact WF_withCol hwf _ _

theorem mem_tarif_step_self (df : DataFrame) : "Tarif" ∈ (tarif_step df).cols := by
  unfold tarif_step
  split
  · exact mem_cols_withCol_self _ _ _
  · exact mem_cols_withCol_self _ _ _

theorem mem_ligne_step_self (df : DataFrame) : "Ligne" ∈ (ligne_step df).cols := by
  unfold ligne_step
  split
  · exact mem_cols_withCol_self _ _ _
  · exact mem_cols_withCol_self _ _ _

theorem mem_ligne_step_mono {df : DataFrame} {c' : String} (h : c' ∈ df.cols) :
    c' ∈ (ligne_step df).cols := by
  unfold ligne_step
  split
  · exact mem_cols_withCol_mono _ _ h
  · exact mem_cols_withCol_mono _ _ h

theorem mem_color_step_mono {df : DataFrame} {c' : String} (h : c' ∈ df.cols) :
    c' ∈ (color_step df).cols :=
  mem_cols_withCol_mono _ _ h

theorem tarif_step_nonnull {df : DataFrame} (hwf : df.WF) :
    ∀ v ∈ getCol (tarif_step df) "Tarif", v ≠ Value.null := by
  unfold tarif_step
  split
  · rw [getCol_withCol_self hwf]
    intro v hv
    simp only [List.mem_map] at hv
    obtain ⟨r, hr, rfl⟩ := hv
    by_cases hc : getCell df.cols r "Tarif" = Value.null
    · simp [hc]
    · simp only [if_neg hc]
      exact hc
  · rw [getCol_withCol_self hwf]
    intro v hv
    simp only [List.mem_map] at hv
    obtain ⟨r, hr, rfl⟩ := hv
    simp

theorem ligne_step_str {df : DataFrame} (hwf : df.WF) :
    ∀ v ∈ getCol (ligne_step df) "Ligne", ∃ s, v = Value.str s := by
  unfold ligne_step
  split
  · rw [getCol_withCol_self hwf]
    intro v hv
    simp only [List.mem_map] at hv
    obtain ⟨r, hr, rfl⟩ := hv
    exact ⟨_, rfl⟩
  · rw [getCol_withCol_self hwf]
    intro v hv
    simp only [List.mem_map] at hv
    obtain ⟨r, hr, rfl⟩ := hv
    exact ⟨_, rfl⟩

theorem getCol_ligne_step_ne {df : DataFrame} (hwf : df.WF) {c' : String}
    (h : c' ≠ "Ligne") : getCol (ligne_step df) c' = getCol df c' := by
  unfold ligne_step
  split
  · exact getCol_withCol_ne hwf h _
  · exact getCol_withCol_ne hwf h _

theorem getCol_color_step_ne {df : DataFrame} (hwf : df.WF) {c' : String}
    (h : c' ≠ "color") : getCol (color_step df) c' = getCol df c' :=
  getCol_withCol_ne hwf h _
/-! ## Claims -/

/-- **C1** (code_bug evidence).  The claim says cleaning never raises:
"clean_data applied to a non-empty record list that contains no nested
coordinate field still returns a table rather than raising."  It is
refuted by the code: on the non-empty input `[{"ligne": "4"}]` no
`lat`/`lon` columns are ever created, so `df.dropna(subset=['lat','lon'])`
on line 53 raises `KeyError`, which nothing in `clean_data` catches. -/
theorem C1_clean_data_raises_on_missing_coord :
    clean_data (toDataFrame [recordNoCoord]) = .error "KeyError" := by decide

/-- **C2** (code_bug evidence).  The spec's scenario says cleaning
`[{"ligne": "4"}]` yields a table with zero rows; instead the code
raises `KeyError` (see `C1`), so no cleaned table at all is produced
for this input. -/
theorem C2_no_table_for_record_without_coord :
    (clean_data (toDataFrame [recordNoCoord])).toOption = none := by decide

/-- **C5**.  Cleaning the one-record input
`[{"coord_geo": [48.85, 2.35], "ligne": "1", "tarif_gratuit_payant": "Payant"}]`
yields exactly one row with `Ligne = "1"`, `Tarif = "Payant"`,
`lat = 48.85`, `lon = 2.35` and `color = "#FF0000"` (the decimals are
written `dec 4885 2` and `dec 235 2`; the last two conjuncts identify
them with the literals 48.85 and 2.35). -/
theorem C5_scenario_cleaned_row :
    clean_data (toDataFrame [sampleRecord]) = .ok sampleCleaned ∧
    sampleCleaned.rows.length = 1 ∧
    getCol sampleCleaned "Ligne" = [.str "1"] ∧
    getCol sampleCleaned "Tarif" = [.str "Payant"] ∧
    getCol sampleCleaned "lat" = [.num (dec 4885 2)] ∧
    getCol sampleCleaned "lon" = [.num (dec 235 2)] ∧
    getCol sampleCleaned "color" = [.str "#FF0000"] ∧
    (dec 4885 2 : Rat) = 48.85 ∧ (dec 235 2 : Rat) = 2.35 := by
  refine ⟨by decide, by decide, by decide, by decide, by decide, by decide, by decide,
    ?_, ?_⟩
  · norm_num [dec]
  · norm_num [dec]

/-- **C6**.  For every non-empty well-formed input that `clean_data`
cleans successfully, the output table has `Tarif` and `Ligne` columns,
every `Tarif` cell is non-null, and every `Ligne` cell is a string
(text-coerced or the sentinel `"Inconnue"`). -/
theorem C6_tarif_ligne_present_nonnull (df out : DataFrame) (hwf : df.WF)
    (hne : df.isEmpty = false) (h : clean_data df = .ok out) :
    "Tarif" ∈ out.cols ∧ "Ligne" ∈ out.cols ∧
    (∀ v ∈ getCol out "Tarif", v ≠ Value.null) ∧
    (∀ v ∈ getCol out "Ligne", ∃ s, v = Value.str s) := by
  unfold clean_data at h
  rw [hne] at h
  simp only [Bool.false_eq_true, if_false] at h
  rcases hd : dropna_lat_lon (if "coord_geo" ∈ df.cols then extract_coords df else df)
    with e | d2
  · rw [hd] at h
    exact Except.noConfusion h
  · rw [hd] at h
    injection h with h'
    have hwf1 : (if "coord_geo" ∈ df.cols then extract_coords df else df).WF := by
      split
      · exact WF_extract_coords hwf
      · exact hwf
    have hwf2 : d2.WF := WF_dropna hwf1 hd
    have hwf3 : (renameCols d2).WF := WF_renameCols hwf2
    have hwf4 : (tarif_step (renameCols d2)).WF := WF_tarif_step hwf3
    have hwf5 : (ligne_step (tarif_step (renameCols d2))).WF := WF_ligne_step hwf4
    subst h'
    refine ⟨?_, ?_, ?_, ?_⟩
    · exact mem_color_step_mono (mem_ligne_step_mono (mem_tarif_step_self _))
    · exact mem_color_step_mono (mem_ligne_step_self _)
    · rw [getCol_color_step_ne hwf5 (by decide), getCol_ligne_step_ne hwf4 (by decide)]
      exact tarif_step_nonnull hwf3
    · rw [getCol_color_step_ne hwf5 (by decide)]
      exact ligne_step_str hwf4

/-- **C6 witness**: the invariant instantiated on the spec's scenario
input. -/
theorem C6_tarif_ligne_present_nonnull_witness :
    "Tarif" ∈ sampleCleaned.cols ∧ "Ligne" ∈ sampleCleaned.cols ∧
    (∀ v ∈ getCol sampleCleaned "Tarif", v ≠ Value.null) ∧
    (∀ v ∈ getCol sampleCleaned "Ligne", ∃ s, v = Value.str s) :=
  C6_tarif_ligne_present_nonnull (toDataFrame [sampleRecord]) sampleCleaned
    (by decide) (by decide) (by decide)

/-- **C4**.  With a `coord_geo` column present, the extraction step
assigns, row by row, `coordLambda0`/`coordLambda1` of the `coord_geo`
cell to `lat`/`lon`; the lambdas map a two-element list to its elements
0 and 1 and everything else to null. -/
theorem C4_coord_extraction (df : DataFrame) (hwf : df.WF)
    (hmem : "coord_geo" ∈ df.cols) :
    getCol (extract_coords df) "lat" = (getCol df "coord_geo").map coordLambda0 ∧
    getCol (extract_coords df) "lon" = (getCol df "coord_geo").map coordLambda1 ∧
    (∀ a b : Value,
      coordLambda0 (.vlist (.vcons a (.vcons b .vnil))) = a ∧
      coordLambda1 (.vlist (.vcons a (.vcons b .vnil))) = b) ∧
    (∀ x : Value, isPairList x = false →
      coordLambda0 x = Value.null ∧ coordLambda1 x = Value.null) := by
  have hwf1 : (withCol df "lat"
      (fun r => coordLambda0 (getCell df.cols r "coord_geo"))).WF :=
    WF_withCol hwf _ _
  refine ⟨?_, ?_, ?_, ?_⟩
  · simp only [extract_coords]
    rw [getCol_withCol_ne hwf1 (by decide) _, getCol_withCol_self hwf,
      getCol_eq_map_getCell hmem, List.map_map]
    rfl
  · simp only [extract_coords]
    rw [getCol_withCol_self hwf1,
      map_getCell_withCol hwf (by decide) _ coordLambda1,
      getCol_eq_map_getCell hmem, List.map_map]
    rfl
  · intro a b
    exact ⟨rfl, rfl⟩
  · intro x hx
    cases x with
    | null => exact ⟨rfl, rfl⟩
    | str s => exact ⟨rfl, rfl⟩
    | num q => exact ⟨rfl, rfl⟩
    | vlist xs =>
      have hlen : xs.length ≠ 2 := by
        simpa [isPairList] using hx
      simp [coordLambda0, coordLambda1, hlen]

/-- **C4 witness**: the extraction equations instantiated on the spec's
scenario input (which has a `coord_geo` column). -/
theorem C4_coord_extraction_witness :
    getCol (extract_coords (toDataFrame [sampleRecord])) "lat" =
      (getCol (toDataFrame [sampleRecord]) "coord_geo").map coordLambda0 ∧
    getCol (extract_coords (toDataFrame [sampleRecord])) "lon" =
      (getCol (toDataFrame [sampleRecord]) "coord_geo").map coordLambda1 :=
  ⟨(C4_coord_extraction (toDataFrame [sampleRecord]) (by decide) (by decide)).1,
   (C4_coord_extraction (toDataFrame [sampleRecord]) (by decide) (by decide)).2.1⟩

/-- **C7**.  Filtering with an empty selection returns the full
unfiltered table, for every table. -/
theorem C7_empty_selection_full_table (df : DataFrame) : df_filtre df [] = df := by
  unfold df_filtre
  split
  · simp
  · rfl

/-- **C8**.  Filtering with the full set of distinct `Ligne` values of
the table is the identity, for every table. -/
theorem C8_full_selection_identity (df : DataFrame) :
    df_filtre df (lignes_dispo df) = df := by
  unfold df_filtre
  by_cases hg : df.isEmpty = false ∧ "Ligne" ∈ df.cols
  · rw [if_pos hg]
    obtain ⟨hne, hmem⟩ := hg
    obtain ⟨i, hi⟩ := colIdx?_isSome_of_mem hmem
    have hrows : df.rows ≠ [] := by
      unfold DataFrame.isEmpty at hne
      rcases hr : df.rows with _ | _
      · rw [hr] at hne
        simp at hne
      · simp
    have hchoix : lignes_dispo df ≠ [] := by
      unfold lignes_dispo getCol
      rw [hi]
      rw [ne_eq, List.dedup_eq_nil, List.map_eq_nil_iff]
      exact hrows
    rw [if_pos hchoix]
    unfold filterIsin
    have hfil :
        df.rows.filter
          (fun r => decide (getCell df.cols r "Ligne" ∈ lignes_dispo df)) =
        df.rows := by
      rw [List.filter_eq_self]
      intro r hr
      rw [decide_eq_true_eq]
      unfold lignes_dispo
      rw [List.mem_dedup]
      unfold getCol getCell
      rw [hi]
      exact List.mem_map_of_mem _ hr
    calc (⟨df.cols,
            df.rows.filter
              (fun r => decide (getCell df.cols r "Ligne" ∈ lignes_dispo df))⟩ :
          DataFrame)
        = ⟨df.cols, df.rows⟩ := by rw [hfil]
      _ = df := rfl
  · rw [if_neg hg]

/-- **C3 counterexample** (closed).  On an empty cleaned table the Home
page still renders the success banner — and nothing else but the title:
no failure-style banner (`st.error`/`st.warning`) appears.  The claim
"a failure banner is shown when the table is empty" is therefore false
of the code. -/
theorem C3_empty_table_still_success_banner :
    accueil_page emptyDF emptyDF =
      [.title "🚾 Dashboard RATP (API En direct)",
       .successBanner "✅ Données récupérées avec succès depuis l'API officielle !"] ∧
    (accueil_page emptyDF emptyDF).any UIElem.isSuccessBanner = true ∧
    (accueil_page emptyDF emptyDF).all (fun e => !e.isFailureBanner) = true := by
  decide

/-- **C3 amended**.  The Home page always shows the success banner and
never a failure-style banner, whatever the table; what does depend on
the table being non-empty is the presence of the metric widgets (and
the pie chart that accompanies them). -/
theorem C3_banner_independent_of_table (df dff : DataFrame) :
    (accueil_page df dff).any UIElem.isSuccessBanner = true ∧
    (accueil_page df dff).all (fun e => !e.isFailureBanner) = true ∧
    (accueil_page df dff).any UIElem.isMetric = !df.isEmpty := by
  cases he : df.isEmpty
  · simp [accueil_page, he, UIElem.isSuccessBanner, UIElem.isFailureBanner,
      UIElem.isMetric]
  · simp [accueil_page, he, UIElem.isSuccessBanner, UIElem.isFailureBanner,
      UIElem.isMetric]

/-- `[r['fields'] for r in records]` succeeds and is the identity when
every record carries a `fields` sub-object. -/
theorem extractFields_all_fields (flds : List RawRecord) :
    extractFields (flds.map (fun f => ⟨some f⟩)) = .ok flds := by
  induction flds with
  | nil => rfl
  | cons f fs ih => simp [extractFields, ih]

/-- **C9 counterexample** (closed).  An HTTP 200 response whose
`records` list is empty makes the fetch return an empty collection with
no error reported, so "returns an empty collection exactly when the
request does not succeed" is false: emptiness does not imply failure. -/
theorem C9_success_can_return_empty :
    load_data_from_api (.success 200 (.parsed [])) = (emptyDF, none) ∧
    emptyDF.isEmpty = true := by decide

/-- **C9 amended**.  On any non-200 status the fetch reports the
connection-error message and returns the empty frame; on a transport
exception or a body-parse exception it reports the technical-error
message (carrying the exception text) and returns the empty frame; on
HTTP 200 with a parsed body whose records all carry `fields`, it
returns exactly those `fields` as the table, with no error — a table
that may itself be empty. -/
theorem C9_fetch_error_contract :
    (∀ (st : Nat) (body : ApiBody), st ≠ 200 →
      load_data_from_api (.success st body) = (emptyDF, some .connectionError)) ∧
    (∀ e, load_data_from_api (.transportError e) =
      (emptyDF, some (.technicalError e))) ∧
    (∀ e, load_data_from_api (.success 200 (.parseError e)) =
      (emptyDF, some (.technicalError e))) ∧
    (∀ flds : List RawRecord,
      load_data_from_api (.success 200 (.parsed (flds.map (fun f => ⟨some f⟩)))) =
        (toDataFrame flds, none)) := by
  refine ⟨?_, ?_, ?_, ?_⟩
  · intro st body hst
    simp [load_data_from_api, hst]
  · intro e
    rfl
  · intro e
    rfl
  · intro flds
    simp [load_data_from_api, extractFields_all_fields]

/-- **C9 witness**: the non-200 contract instantiated at status 500. -/
theorem C9_fetch_error_contract_witness :
    load_data_from_api (.success 500 (.parsed [])) =
      (emptyDF, some .connectionError) :=
  C9_fetch_error_contract.1 500 (.parsed []) (by decide)

/-- Reading an untouched reference after an in-place write elsewhere. -/
theorem Heap.get_set_ne (h : Heap) {i r : Nat} (df : DataFrame) (hne : i ≠ r) :
    (h.set i df).get r = h.get r := by
  unfold Heap.get Heap.set
  exact List.getElem?_set_ne hne

/-- Reading an existing reference after an allocation. -/
theorem Heap.get_alloc (h : Heap) (df : DataFrame) {r : Nat}
    (hr : r < h.store.length) : (h.alloc df).1.get r = h.get r := by
  unfold Heap.get Heap.alloc
  exact List.getElem?_append_left hr

/-- **C10**.  `clean_data` never mutates the frame passed to it: it
works on a copy (line 34), so after the call — whether it returns
normally, returns early, or propagates the `KeyError` — the caller's
object is exactly what it was before. -/
theorem C10_clean_data_arg_unchanged (h : Heap) (arg : Nat) (df0 : DataFrame)
    (hget : h.get arg = some df0) :
    (clean_data_st h arg).1.get arg = some df0 := by
  have hget' : h.store[arg]? = some df0 := hget
  have harg : arg < h.store.length := (List.getElem?_eq_some.mp hget').1
  unfold clean_data_st
  simp only [hget]
  by_cases he : df0.isEmpty = true
  · rw [if_pos he]
    exact hget
  · rw [if_neg he]
    simp only [Heap.alloc, Heap.set, Heap.get]
    rcases hd : dropna_lat_lon (if "coord_geo" ∈ df0.cols then extract_coords df0
        else df0) with e | d2
    · simp only [hd]
      rw [List.getElem?_set_ne (by omega), List.getElem?_append_left harg]
      exact hget'
    · simp only [hd]
      rw [List.getElem?_set_ne (by simp only [List.length_append, List.length_set,
          List.length_cons, List.length_nil]; omega)]
      rw [List.getElem?_append_left (by simp only [List.length_append, List.length_set,
          List.length_cons, List.length_nil]; omega)]
      rw [List.getElem?_append_left (by simp only [List.length_append, List.length_set,
          List.length_cons, List.length_nil]; omega)]
      rw [List.getElem?_set_ne (by omega), List.getElem?_append_left harg]
      exact hget'

/-- **C10 witness**: the no-mutation property at a concrete one-object
heap. -/
theorem C10_clean_data_arg_unchanged_witness :
    (clean_data_st ⟨[sampleCleaned]⟩ 0).1.get 0 = some sampleCleaned :=
  C10_clean_data_arg_unchanged ⟨[sampleCleaned]⟩ 0 sampleCleaned (by decide)
